import Mathlib

/-!
Shallow embedding of the libfinder POSIX module (`src/lib/libfinder/posix.py`)
and proofs about its resolution cascade, ABI classification, parsing and
error behaviour.

The module interacts with the operating system through a small set of
primitives: `uname().machine`, `struct.calcsize('l')`,
`distutils.spawn.find_executable`, `subprocess.Popen`, `os.path.realpath`,
`os.getcwd`, `glob.glob`, `os.path.isfile` and `tempfile.NamedTemporaryFile`.
These are modelled as fields of an explicit environment record `Env`; every
function of the module becomes a pure Lean function over `Env`.

Pure pieces of the Python standard library that the module relies on are
embedded directly, following the CPython implementations:
  * `shlex.split` in POSIX mode (`shlexSplit`), including its `ValueError`
    on an unbalanced quote or a trailing escape character;
  * `posixpath.normpath` (`normpath`);
  * `posixpath.join` (`pyJoin`);
  * `str.find` / slicing with a negative stop index / `str.strip` /
    `str.split` (`pyFindChar`, `pySlice`, `pyStrip`, `splitOnL`);
  * the three regular expressions used by the module, each embedded as a
    deterministic scanner with Python `re.search` leftmost semantics
    (`ldcScan`, `gccSearch`, `sonameSearch`).  For each of those patterns
    greedy repetition never needs to backtrack (every repeated class is
    followed by a literal that the class excludes), so maximal-run scanning
    is exactly the `re` behaviour.

Python exceptions are modelled by the `PyExc` type and fallible functions
return `Except PyExc`; `None` results are `Option.none`.
-/

namespace Libfinder

set_option maxRecDepth 16384

/-- Python exceptions that the embedded code can raise.  `nameError` stands
for `UnboundLocalError` (a subclass of `NameError`): reading a local
variable that was never assigned. -/
inductive PyExc where
  | valueError
  | osError (errno : Int)
  | nameError
  | assertionError
deriving DecidableEq

/-- Outcome of `subprocess.Popen` + `communicate` for a given argv: either
the process ran and produced this (decoded) standard output, or the spawn
machinery raised `OSError` with this errno (e.g. `ENOENT` when the
executable does not exist, `EAGAIN` when a process cannot be forked). -/
inductive SpawnResult where
  | ok (stdout : String)
  | oserror (errno : Int)
deriving DecidableEq

/-- Behaviour of `tempfile.NamedTemporaryFile()` in this process: either a
file is created with the given name (and on context exit its cleanup
optionally raises `OSError` with the given errno), or creation itself
raises `OSError` with the given errno. -/
inductive TempFile where
  | ok (name : String) (exitError : Option Int)
  | createError (errno : Int)
deriving DecidableEq

/-- The operating-system environment the module runs against. -/
structure Env where
  /-- `os.uname().machine` -/
  machine : String
  /-- `struct.calcsize('l')` -/
  longSize : Nat
  /-- `distutils.spawn.find_executable` -/
  findExecutable : String → Option String
  /-- spawning a child process with this argv -/
  popen : List String → SpawnResult
  /-- `os.path.realpath` (symlink resolution by the filesystem) -/
  realpath : String → String
  /-- `os.getcwd()` -/
  cwd : String
  /-- `glob.glob` applied to a pattern -/
  globResult : String → List String
  /-- `os.path.isfile` -/
  isfile : String → Bool
  /-- `tempfile.NamedTemporaryFile()` -/
  tempfile : TempFile

/-- `errno.ENOENT` -/
def ENOENT : Int := 2

/-- Python `\s` on ASCII text: `' '`, `'\t'`, `'\n'`, `'\r'`, `'\x0b'`,
`'\x0c'`. -/
def isPySpace (c : Char) : Bool :=
  c == ' ' || c == '\t' || c == '\n' || c == '\r' ||
  c == Char.ofNat 11 || c == Char.ofNat 12

/-- `shlex.whitespace`: `' '`, `'\t'`, `'\r'`, `'\n'`. -/
def isShWs (c : Char) : Bool :=
  c == ' ' || c == '\t' || c == '\r' || c == '\n'

/-- States of the CPython `shlex` tokenizer in POSIX mode. -/
inductive ShlexState where
  | ws
  | word
  | squote
  | dquote
  | escapeSt
  | dqEscape

/-- CPython `shlex.read_token` with `posix=True`, `whitespace_split=True`:
whitespace-separated tokens, single and double quotes, backslash escapes
(inside double quotes a backslash only escapes `"` and `\`).  `none` models
the `ValueError` raised on an unclosed quotation or a trailing escape. -/
def shlexAux : List Char → ShlexState → List Char → List String → Option (List String)
  | [], .ws, _, acc => some acc.reverse
  | [], .word, tok, acc => some ((String.mk tok.reverse :: acc).reverse)
  | [], .squote, _, _ => none
  | [], .dquote, _, _ => none
  | [], .escapeSt, _, _ => none
  | [], .dqEscape, _, _ => none
  | c :: rest, .ws, _, acc =>
    if isShWs c then shlexAux rest .ws [] acc
    else if c == '\'' then shlexAux rest .squote [] acc
    else if c == '"' then shlexAux rest .dquote [] acc
    else if c == '\\' then shlexAux rest .escapeSt [] acc
    else shlexAux rest .word [c] acc
  | c :: rest, .word, tok, acc =>
    if isShWs c then shlexAux rest .ws [] (String.mk tok.reverse :: acc)
    else if c == '\'' then shlexAux rest .squote tok acc
    else if c == '"' then shlexAux rest .dquote tok acc
    else if c == '\\' then shlexAux rest .escapeSt tok acc
    else shlexAux rest .word (c :: tok) acc
  | c :: rest, .squote, tok, acc =>
    if c == '\'' then shlexAux rest .word tok acc
    else shlexAux rest .squote (c :: tok) acc
  | c :: rest, .dquote, tok, acc =>
    if c == '"' then shlexAux rest .word tok acc
    else if c == '\\' then shlexAux rest .dqEscape tok acc
    else shlexAux rest .dquote (c :: tok) acc
  | c :: rest, .escapeSt, tok, acc => shlexAux rest .word (c :: tok) acc
  | c :: rest, .dqEscape, tok, acc =>
    if c == '"' || c == '\\' then shlexAux rest .dquote (c :: tok) acc
    else shlexAux rest .dquote (c :: '\\' :: tok) acc

/-- `shlex.split(command)`; `none` is the `ValueError` case. -/
def shlexSplit (command : String) : Option (List String) :=
  shlexAux command.data .ws [] []

/-- Split a character list at `'/'` (used by `normpath`, mirroring
`path.split(sep)`). -/
def splitChar (c : Char) : List Char → List (List Char)
  | [] => [[]]
  | x :: xs =>
    if x == c then [] :: splitChar c xs
    else
      match splitChar c xs with
      | [] => [[x]]
      | h :: t => (x :: h) :: t

/-- `sep.join`, character-list version. -/
def intercalateChar (c : Char) : List (List Char) → List Char
  | [] => []
  | [x] => x
  | x :: y :: rest => x ++ c :: intercalateChar c (y :: rest)

/-- CPython `posixpath.normpath`: collapse `.` and empty components,
resolve `..` against preceding components, keep a double leading slash
distinct from a single one, map the empty path to `"."`. -/
def normpath (path : String) : String :=
  let s := path.data
  if s == [] then "."
  else
    let initialSlashes : Nat :=
      if s.head? == some '/' then
        if s.take 2 == ['/', '/'] && !(s.take 3 == ['/', '/', '/']) then 2 else 1
      else 0
    let comps := splitChar '/' s
    let newComps := comps.foldl (fun acc comp =>
      if comp == [] || comp == ['.'] then acc
      else if !(comp == ['.', '.']) || (initialSlashes == 0 && acc.isEmpty) ||
          (!acc.isEmpty && acc.getLastD [] == ['.', '.']) then acc ++ [comp]
      else if !acc.isEmpty then acc.dropLast
      else acc) []
    let res := List.replicate initialSlashes '/' ++ intercalateChar '/' newComps
    if res == [] then "." else String.mk res

/-- CPython `posixpath.join` for two arguments. -/
def pyJoin (a b : String) : String :=
  if b.data.head? == some '/' then b
  else if a.data == [] || a.data.getLastD ' ' == '/' then a ++ b
  else a ++ "/" ++ b

/-- First index of `c` in `s` (auxiliary for `pyFindChar`). -/
def pyFindAux (c : Char) : List Char → Nat → Option Nat
  | [], _ => none
  | x :: xs, i => if x == c then some i else pyFindAux c xs (i + 1)

/-- Python `s.find(c, start)`: index of the first occurrence of `c` at or
after `start`, or `-1`. -/
def pyFindChar (s : List Char) (c : Char) (start : Nat) : Int :=
  match pyFindAux c (s.drop start) 0 with
  | some j => ((start + j : Nat) : Int)
  | none => -1

/-- Python slice `s[a:b]` where `b` may be negative (counted from the
end, clamped at zero). -/
def pySlice (s : List Char) (a : Nat) (b : Int) : List Char :=
  let n := s.length
  let stop : Nat := if b < 0 then n - (-b).toNat else min b.toNat n
  (s.drop a).take (stop - a)

/-- Python `str.strip()`. -/
def pyStrip (s : List Char) : List Char :=
  ((s.dropWhile isPySpace).reverse.dropWhile isPySpace).reverse

/-- Python `str.split(sep)` for a non-empty separator, leftmost
non-overlapping occurrences (auxiliary, fuelled: the fuel
`s.length + 1` always suffices since each step consumes input). -/
def splitOnLAux (sep : List Char) : Nat → List Char → List Char → List (List Char)
  | 0, s, acc => [acc.reverse ++ s]
  | fuel + 1, s, acc =>
    match s with
    | [] => [acc.reverse]
    | c :: rest =>
      if sep.isPrefixOf s then acc.reverse :: splitOnLAux sep fuel (s.drop sep.length) []
      else splitOnLAux sep fuel rest (c :: acc)

/-- Python `str.split(sep)`. -/
def splitOnL (sep s : List Char) : List (List Char) :=
  splitOnLAux sep (s.length + 1) s []

/-- Python truthiness of an optional string: `None` and `''` are falsy.
`a or b` on such values is `pyOrOpt a b`. -/
def truthy : Option String → Bool
  | none => false
  | some s => !(s == "")

/-- Python `a or b` for optional strings. -/
def pyOrOpt (a b : Option String) : Option String :=
  if truthy a then a else b

/-- The association list literal `abi_map` of `_abi_type`. -/
def abi_map : List ((String × String) × String) :=
  [(("x86_64", "64"), "libc6,x86-64"),
   (("ppc64", "64"), "libc6,64bit"),
   (("sparc64", "64"), "libc6,64bit"),
   (("s390x", "64"), "libc6,64bit"),
   (("ia64", "64"), "libc6,IA-64")]

/-- Python `dict.get(key, default)` over an association list built from a
dict literal. -/
def dictGet : List ((String × String) × String) → (String × String) → String → String
  | [], _, dflt => dflt
  | (k, v) :: rest, key, dflt => if key = k then v else dictGet rest key dflt

/-- `_abi_type()`: map `(uname().machine, '32' or '64')` through `abi_map`
with default `'libc6'`. -/
def _abi_type (env : Env) : String :=
  let machine := env.machine
  let arch := if env.longSize = 4 then "32" else "64"
  dictGet abi_map (machine, arch) "libc6"

/-- `_execute(command)`: tokenize the command with `shlex.split` (whose
`ValueError` propagates), spawn the process; any `OSError` from spawning
is caught and turned into `None`, otherwise the decoded stdout is
returned. -/
def _execute (env : Env) (command : String) : Except PyExc (Option String) :=
  match shlexSplit command with
  | none => .error .valueError
  | some argv =>
    match env.popen argv with
    | .ok stdout => .ok (some stdout)
    | .oserror _ => .ok none

/-- `_final_path(library_path) = realpath(normpath(library_path))`. -/
def _final_path (env : Env) (library_path : String) : String :=
  env.realpath (normpath library_path)

/-- Attempt of the pattern `\s+(lib<library>\.[^\s]+)\s+\(<abi>` at
position `i`; returns the end position of the whole match.  `lit` is the
literal `lib<library>.` (the `re.escape`d library name makes it literal)
and `abi` the literal ABI tag.  Each greedy run is maximal; since every
repeated class excludes the character that must follow it, this is
exactly Python `re` semantics. -/
def ldcMatchAt (lit abi : List Char) (s : List Char) (i : Nat) : Option Nat :=
  let t := s.drop i
  let w1 := (t.takeWhile isPySpace).length
  if w1 == 0 then none
  else
    let t2 := t.drop w1
    if lit.isPrefixOf t2 then
      let t3 := t2.drop lit.length
      let n1 := (t3.takeWhile (fun c => !(isPySpace c))).length
      if n1 == 0 then none
      else
        let t4 := t3.drop n1
        let w2 := (t4.takeWhile isPySpace).length
        if w2 == 0 then none
        else
          let t5 := t4.drop w2
          if ('(' :: abi).isPrefixOf t5 then
            some (i + w1 + lit.length + n1 + w2 + 1 + abi.length)
          else none
    else none

/-- Scan positions left to right (fuelled by the remaining length),
returning the leftmost match `(start, end)` — `re.search`. -/
def ldcScanAux (lit abi : List Char) (s : List Char) : Nat → Nat → Option (Nat × Nat)
  | 0, _ => none
  | fuel + 1, i =>
    match ldcMatchAt lit abi s i with
    | some e => some (i, e)
    | none => ldcScanAux lit abi s fuel (i + 1)

/-- `re.search` for the ldconfig pattern. -/
def ldcScan (lit abi s : List Char) : Option (Nat × Nat) :=
  ldcScanAux lit abi s (s.length + 1) 0

/-- The pure parsing part of `_ldconfig_search` applied to the captured
`ldconfig -p` output: search the pattern, cut the matched line at the next
newline (Python slice with `-1` when there is none), strip it, split it on
`=>` and strip the last piece. -/
def ldconfigParse (abi_type library ldconfig : String) : Option String :=
  let s := ldconfig.data
  match ldcScan ("lib" ++ library ++ ".").data abi_type.data s with
  | none => none
  | some (mstart, mend) =>
    let end_of_line := pyFindChar s '\n' mend
    let line := pyStrip (pySlice s mstart end_of_line)
    let library_path := pyStrip ((splitOnL ['=', '>'] line).getLastD [])
    some (String.mk library_path)

/-- `_ldconfig_search(library)`: locate `ldconfig`, run `ldconfig -p`,
parse the listing, return the `_final_path` of the matched path. -/
def _ldconfig_search (env : Env) (library : String) : Except PyExc (Option String) :=
  match env.findExecutable "ldconfig" with
  | none => .ok none
  | some executable =>
    match _execute env (executable ++ " -p") with
    | .error e => .error e
    | .ok none => .ok none
    | .ok (some ldconfig) =>
      match ldconfigParse (_abi_type env) library ldconfig with
      | none => .ok none
      | some library_path => .ok (some (_final_path env library_path))

/-- Character class `[^\(\)\s]` of the linker-trace pattern. -/
def gccClass (c : Char) : Bool :=
  !(c == '(' || c == ')' || isPySpace c)

/-- Greedy choice for the leading `[^\(\)\s]*`: the largest `k ≤ run` such
that the literal occurs after `k` class characters. -/
def gccTryK (lit t : List Char) : Nat → Option Nat
  | 0 => if lit.isPrefixOf t then some 0 else none
  | k + 1 =>
    if lit.isPrefixOf (t.drop (k + 1)) then some (k + 1)
    else gccTryK lit t k

/-- Attempt of `[^\(\)\s]*lib<library>\.[^\(\)\s]*` at position `i`,
returning `match.group(0)`. -/
def gccMatchAt (lit : List Char) (s : List Char) (i : Nat) : Option (List Char) :=
  let t := s.drop i
  let run := (t.takeWhile gccClass).length
  match gccTryK lit t run with
  | none => none
  | some k =>
    let after := k + lit.length
    let trail := ((t.drop after).takeWhile gccClass).length
    some (t.take (after + trail))

/-- Leftmost-position scan for the linker-trace pattern (fuelled). -/
def gccScanAux (lit s : List Char) : Nat → Nat → Option (List Char)
  | 0, _ => none
  | fuel + 1, i =>
    match gccMatchAt lit s i with
    | some g => some g
    | none => gccScanAux lit s fuel (i + 1)

/-- `re.search` for the linker-trace pattern. -/
def gccSearch (lit s : List Char) : Option (List Char) :=
  gccScanAux lit s (s.length + 1) 0

/-- The command string `'{linker} -Wl,-t -o "{program}" -l"{library}"'`. -/
def gccCommand (linker program library : String) : String :=
  linker ++ " -Wl,-t -o \"" ++ program ++ "\" -l\"" ++ library ++ "\""

/-- Parsing part of `_gcc_search`: search the trace for the pattern and
normalize `match.group(0)`. -/
def gccParse (library trace : String) : Option String :=
  match gccSearch ("lib" ++ library ++ ".").data trace.data with
  | none => none
  | some g0 => some (normpath (String.mk g0))

/-- Continuation of `_gcc_search` after the `try` block, given the value of
the local `trace`. -/
def gccAfterTrace (env : Env) (library : String) : Option String → Except PyExc (Option String)
  | none => .ok none
  | some trace =>
    match gccParse library trace with
    | none => .ok none
    | some library_path => .ok (some (_final_path env library_path))

/-- The `try: with NamedTemporaryFile() ... except OSError` block of
`_gcc_search` once a temporary file `name` was created.  The body assigns
`trace := _execute(command)`; on context exit the cleanup may raise
`OSError(er)` (replacing any body exception, per `with` semantics); the
`except OSError` clause swallows `ENOENT` and re-raises anything else.
When an `OSError(ENOENT)` was swallowed while `trace` was never assigned,
the following `if trace is None` raises `UnboundLocalError`. -/
def gccBody (env : Env) (library linker name : String) (exitError : Option Int) :
    Except PyExc (Option String) :=
  match _execute env (gccCommand linker name library), exitError with
  | .error e, none => .error e
  | .error _, some er =>
    if er = ENOENT then .error .nameError else .error (.osError er)
  | .ok trace, none => gccAfterTrace env library trace
  | .ok trace, some er =>
    if er = ENOENT then gccAfterTrace env library trace else .error (.osError er)

/-- Result of `_gcc_search` together with the temporary-file resource
accounting: `acquired` records that `NamedTemporaryFile()` returned a
file, `released` that its scoped cleanup ran. -/
structure GccRun where
  result : Except PyExc (Option String)
  acquired : Bool
  released : Bool

/-- `_gcc_search(library)` with resource accounting: locate `cc` or `gcc`
(Python `or`), create the scoped temporary file, run the linker with
`-Wl,-t`, parse the trace.  `OSError(ENOENT)` raised before `trace` is
assigned leaves the local unbound, so the subsequent read raises
`UnboundLocalError`. -/
def _gcc_searchR (env : Env) (library : String) : GccRun :=
  match pyOrOpt (env.findExecutable "cc") (env.findExecutable "gcc") with
  | none => ⟨.ok none, false, false⟩
  | some linker =>
    match env.tempfile with
    | .createError errno =>
      ⟨if errno = ENOENT then .error .nameError else .error (.osError errno),
       false, false⟩
    | .ok name exitError => ⟨gccBody env library linker name exitError, true, true⟩

/-- `_gcc_search(library)`. -/
def _gcc_search (env : Env) (library : String) : Except PyExc (Option String) :=
  (_gcc_searchR env library).result

/-- The `for filename in glob(...)` loop of `_local_search`. -/
def localLoop (env : Env) : List String → Option String
  | [] => none
  | filename :: rest =>
    if env.isfile filename then some (_final_path env filename)
    else localLoop env rest

/-- `_local_search(library)`: glob `lib<library>.so*` in the current
working directory and return the `_final_path` of the first regular
file. -/
def _local_search (env : Env) (library : String) : Option String :=
  localLoop env (env.globResult (pyJoin env.cwd ("lib" ++ library ++ ".so*")))

/-- `find_library(library)`: the cascade
`_ldconfig_search(library) or _gcc_search(library) or _local_search(library)`
with Python `or` semantics (`None` and `''` are falsy) and exception
propagation. -/
def find_library (env : Env) (library : String) : Except PyExc (Option String) :=
  match _ldconfig_search env library with
  | .error e => .error e
  | .ok a =>
    if truthy a then .ok a
    else
      match _gcc_search env library with
      | .error e => .error e
      | .ok b =>
        if truthy b then .ok b
        else .ok (_local_search env library)

/-- The three resolution strategies, in cascade order. -/
inductive Strategy where
  | registry
  | linker
  | localdir
deriving DecidableEq

/-- `find_library` instrumented with the list of strategies that were
actually invoked (Python `or` is short-circuiting, so a truthy result
stops the cascade). -/
def find_library_t (env : Env) (library : String) :
    Except PyExc (Option String) × List Strategy :=
  match _ldconfig_search env library with
  | .error e => (.error e, [.registry])
  | .ok a =>
    if truthy a then (.ok a, [.registry])
    else
      match _gcc_search env library with
      | .error e => (.error e, [.registry, .linker])
      | .ok b =>
        if truthy b then (.ok b, [.registry, .linker])
        else (.ok (_local_search env library), [.registry, .linker, .localdir])

/-- Attempt of `\sSONAME\s+([^\s]+)` at position `i`, returning group 1. -/
def sonMatchAt (s : List Char) (i : Nat) : Option (List Char) :=
  match s.drop i with
  | [] => none
  | c :: t1 =>
    if isPySpace c then
      if ['S', 'O', 'N', 'A', 'M', 'E'].isPrefixOf t1 then
        let t2 := t1.drop 6
        let w := (t2.takeWhile isPySpace).length
        if w == 0 then none
        else
          let tok := (t2.drop w).takeWhile (fun c => !(isPySpace c))
          if tok.length == 0 then none else some tok
      else none
    else none

/-- Leftmost-position scan for the SONAME pattern (fuelled). -/
def sonScanAux (s : List Char) : Nat → Nat → Option (List Char)
  | 0, _ => none
  | fuel + 1, i =>
    match sonMatchAt s i with
    | some g => some g
    | none => sonScanAux s fuel (i + 1)

/-- `re.search` for `\sSONAME\s+([^\s]+)`. -/
def sonameSearch (s : List Char) : Option (List Char) :=
  sonScanAux s (s.length + 1) 0

/-- `soname(library_path)`: assert the path is an existing regular file
(`AssertionError` otherwise), run
`objdump -x -j .dynamic <library_path>` and extract the token after the
`SONAME` keyword. -/
def soname (env : Env) (library_path : String) : Except PyExc (Option String) :=
  if env.isfile library_path then
    match _execute env ("objdump -x -j .dynamic " ++ library_path) with
    | .error e => .error e
    | .ok none => .ok none
    | .ok (some dump) =>
      match sonameSearch dump.data with
      | none => .ok none
      | some tok => .ok (some (String.mk tok))
  else .error .assertionError

/-! Concrete scenario data and concrete environments used by witnesses and
counterexamples. -/

/-- A realistic `ldconfig -p` listing containing the line
`libm.so.6 (libc6,x86-64, OS ABI: Linux 2.6.24) => /lib/x86_64-linux-gnu/libm.so.6`
(entries of real listings are tab-indented after a header line). -/
def listingC5 : String :=
  "1 libs found in cache:\n\tlibm.so.6 (libc6,x86-64, OS ABI: Linux 2.6.24) => /lib/x86_64-linux-gnu/libm.so.6\n"

/-- A realistic `objdump -x -j .dynamic` excerpt whose dynamic section
contains a `SONAME` line. -/
def dumpC7 : String :=
  "Dynamic Section:\n  NEEDED               libc.so.6\n  SONAME               libm.so.6\n"

/-- Environment with a working `ldconfig` registry that resolves the query
`m` through `listingC5`; symlink resolution maps every path to `/x`. -/
def envRegistry : Env where
  machine := "x86_64"
  longSize := 8
  findExecutable := fun s => if s = "ldconfig" then some "/sbin/ldconfig" else none
  popen := fun argv => if argv = ["/sbin/ldconfig", "-p"] then .ok listingC5 else .oserror 2
  realpath := fun _ => "/x"
  cwd := "/"
  globResult := fun _ => []
  isfile := fun _ => true
  tempfile := .ok "/tmp/t" none

/-- Environment where no external tool exists and the working directory is
empty: every strategy is inconclusive. -/
def envNoTools : Env where
  machine := "x86_64"
  longSize := 8
  findExecutable := fun _ => none
  popen := fun _ => .oserror 2
  realpath := fun s => s
  cwd := "/home/user"
  globResult := fun _ => []
  isfile := fun _ => false
  tempfile := .ok "/tmp/t" none

/-- Environment where `ldconfig` is absent but a C compiler is present;
nothing matches anywhere. -/
def envMalformed : Env where
  machine := "x86_64"
  longSize := 8
  findExecutable := fun s => if s = "cc" then some "/usr/bin/cc" else none
  popen := fun _ => .oserror 2
  realpath := fun s => s
  cwd := "/home/user"
  globResult := fun _ => []
  isfile := fun _ => false
  tempfile := .ok "/tmp/t" none

/-- Environment where `ldconfig` is on the path but the process-spawn
machinery itself fails with `OSError(EAGAIN)` (errno 11): a
spawn-infrastructure failure, not a missing tool. -/
def envSpawnFail : Env where
  machine := "x86_64"
  longSize := 8
  findExecutable := fun s => if s = "ldconfig" then some "/sbin/ldconfig" else none
  popen := fun _ => .oserror 11
  realpath := fun s => s
  cwd := "/"
  globResult := fun _ => []
  isfile := fun _ => false
  tempfile := .ok "/tmp/t" none

/-- Environment where a C compiler is present but creating the scoped
temporary file raises `OSError(ENOENT)`. -/
def envTmpFail : Env where
  machine := "x86_64"
  longSize := 8
  findExecutable := fun s => if s = "cc" then some "/usr/bin/cc" else none
  popen := fun _ => .oserror 2
  realpath := fun s => s
  cwd := "/"
  globResult := fun _ => []
  isfile := fun _ => false
  tempfile := .createError 2

/-- Environment where `objdump` produces `dumpC7` for the resolved libm
path. -/
def envObjdump : Env where
  machine := "x86_64"
  longSize := 8
  findExecutable := fun _ => none
  popen := fun argv =>
    if argv = ["objdump", "-x", "-j", ".dynamic", "/lib/x86_64-linux-gnu/libm.so.6"]
    then .ok dumpC7 else .oserror 2
  realpath := fun s => s
  cwd := "/"
  globResult := fun _ => []
  isfile := fun _ => true
  tempfile := .ok "/tmp/t" none

/-- First environment for the ABI determinism witness (x86-64, 8-byte
longs). -/
def envAbiA : Env where
  machine := "x86_64"
  longSize := 8
  findExecutable := fun _ => none
  popen := fun _ => .oserror 2
  realpath := fun s => s
  cwd := "/"
  globResult := fun _ => []
  isfile := fun _ => false
  tempfile := .ok "/tmp/t" none

/-- Second environment for the ABI determinism witness: same machine and
pointer width as `envAbiA`, different in every other field. -/
def envAbiB : Env where
  machine := "x86_64"
  longSize := 8
  findExecutable := fun s => some s
  popen := fun _ => .ok "output"
  realpath := fun _ => "/other"
  cwd := "/tmp"
  globResult := fun p => [p]
  isfile := fun _ => true
  tempfile := .createError 13

/-! Helper lemmas shared by the claim theorems. -/

lemma beq_false_of_ne {a b : String} (h : a ≠ b) : (a == b) = false := by
  cases hbe : a == b with
  | false => rfl
  | true => exact absurd (eq_of_beq hbe) h

lemma truthy_some_of_ne {p : String} (hp : p ≠ "") : truthy (some p) = true := by
  simp [truthy, beq_false_of_ne hp]

/-- `_execute` can only raise `ValueError` (from `shlex.split`): every
`OSError` of the spawn step is caught inside it. -/
lemma execute_error_eq {env : Env} {command : String} {e : PyExc}
    (h : _execute env command = .error e) : e = .valueError := by
  unfold _execute at h
  cases hs : shlexSplit command with
  | none =>
    simp only [hs] at h
    exact (Except.error.inj h).symm
  | some argv =>
    simp only [hs] at h
    cases hp : env.popen argv with
    | ok s => simp [hp] at h
    | oserror er => simp [hp] at h

/-! Claim theorems. -/

/-- C4: `_abi_type` is a pure, deterministic function of the pair
(machine architecture string, pointer width in bytes, 4 vs 8): on the
64-bit side it maps exactly the five known machines `x86_64`, `ppc64`,
`sparc64`, `s390x`, `ia64` to the tags `libc6,x86-64`, `libc6,64bit`,
`libc6,64bit`, `libc6,64bit`, `libc6,IA-64`, and every other pair to the
generic tag `libc6`. -/
theorem abi_type_table :
    (∀ env : Env, env.longSize = 4 ∨ env.longSize = 8 →
      _abi_type env =
        if env.longSize = 8 then
          if env.machine = "x86_64" then "libc6,x86-64"
          else if env.machine = "ppc64" ∨ env.machine = "sparc64" ∨ env.machine = "s390x" then
            "libc6,64bit"
          else if env.machine = "ia64" then "libc6,IA-64"
          else "libc6"
        else "libc6") ∧
    (∀ e1 e2 : Env, e1.machine = e2.machine → e1.longSize = e2.longSize →
      _abi_type e1 = _abi_type e2) := by
  constructor
  · intro env h
    rcases h with h | h
    · simp [_abi_type, abi_map, dictGet, h, Prod.mk.injEq]
    · by_cases h1 : env.machine = "x86_64"
      · simp [_abi_type, abi_map, dictGet, h, h1]
      · by_cases h2 : env.machine = "ppc64"
        · simp [_abi_type, abi_map, dictGet, h, h1, h2, Prod.mk.injEq]
        · by_cases h3 : env.machine = "sparc64"
          · simp [_abi_type, abi_map, dictGet, h, h1, h2, h3, Prod.mk.injEq]
          · by_cases h4 : env.machine = "s390x"
            · simp [_abi_type, abi_map, dictGet, h, h1, h2, h3, h4, Prod.mk.injEq]
            · by_cases h5 : env.machine = "ia64"
              · simp [_abi_type, abi_map, dictGet, h, h1, h2, h3, h4, h5, Prod.mk.injEq]
              · simp [_abi_type, abi_map, dictGet, h, h1, h2, h3, h4, h5, Prod.mk.injEq]
  · intro e1 e2 h1 h2
    simp only [_abi_type]
    rw [h1, h2]

/-- Witness for `abi_type_table`: the x86-64 row of the table, and
determinism across two environments that agree only on machine and
pointer width. -/
theorem abi_type_table_witness :
    _abi_type envAbiA = "libc6,x86-64" ∧ _abi_type envAbiA = _abi_type envAbiB := by
  constructor
  · have h := abi_type_table.1 envAbiA (Or.inr rfl)
    simpa [envAbiA] using h
  · exact abi_type_table.2 envAbiA envAbiB rfl rfl

/-- C6: `soname` on a path that is not an existing regular file raises the
precondition error (`AssertionError`), which is distinct from the `None`
used for “no SONAME found”; on an existing regular file that error is
never raised. -/
theorem soname_precondition (env : Env) (p : String) :
    (env.isfile p = false → soname env p = .error .assertionError) ∧
    (env.isfile p = true → soname env p ≠ .error .assertionError) := by
  constructor
  · intro h
    simp [soname, h]
  · intro h hc
    simp only [soname, h, if_true] at hc
    cases hx : _execute env ("objdump -x -j .dynamic " ++ p) with
    | error e =>
      simp only [hx] at hc
      have hv := execute_error_eq hx
      rw [hv] at hc
      exact PyExc.noConfusion (Except.error.inj hc)
    | ok o =>
      cases o with
      | none => simp [hx] at hc
      | some dump =>
        simp only [hx] at hc
        cases hsr : sonameSearch dump.data with
        | none => simp [hsr] at hc
        | some tok => simp [hsr] at hc

/-- Witness for `soname_precondition`: a missing file raises the
precondition error; an existing file never does. -/
theorem soname_precondition_witness :
    soname envNoTools "/nonexistent" = Except.error PyExc.assertionError ∧
    soname envObjdump "/lib/x86_64-linux-gnu/libm.so.6" ≠
      Except.error PyExc.assertionError :=
  ⟨(soname_precondition envNoTools "/nonexistent").1 rfl,
   (soname_precondition envObjdump "/lib/x86_64-linux-gnu/libm.so.6").2 rfl⟩

/-- C9: on every exit path of `_gcc_search` — success, no-match, and
exception alike — the scoped temporary file is released exactly when it
was acquired: the `with` block's cleanup is a resource-scope guarantee,
not best-effort. -/
theorem gcc_tempfile_scoped_release (env : Env) (library : String) :
    (_gcc_searchR env library).acquired = (_gcc_searchR env library).released := by
  unfold _gcc_searchR
  cases pyOrOpt (env.findExecutable "cc") (env.findExecutable "gcc") with
  | none => rfl
  | some linker =>
    cases env.tempfile with
    | createError errno => rfl
    | ok name exitError => rfl

/-- C10: when the temporary-file context raises `OSError(ENOENT)` before
the linker output was assigned to the local `trace` — e.g. when
`NamedTemporaryFile()` itself fails with `ENOENT`, or when the body raised
and the cleanup's `ENOENT` replaced that exception — the `except OSError`
clause swallows the error and the following `if trace is None` reads an
unbound local, so `_gcc_search` raises `UnboundLocalError` (a `NameError`)
instead of returning absent. -/
theorem gcc_enoent_unbound_trace (env : Env) (library linker : String)
    (hl : pyOrOpt (env.findExecutable "cc") (env.findExecutable "gcc") = some linker) :
    (env.tempfile = .createError ENOENT → _gcc_search env library = .error .nameError) ∧
    (∀ name e, env.tempfile = TempFile.ok name (some ENOENT) →
      _execute env (gccCommand linker name library) = .error e →
      _gcc_search env library = .error .nameError) := by
  constructor
  · intro ht
    simp [_gcc_search, _gcc_searchR, hl, ht]
  · intro name e ht hx
    simp [_gcc_search, _gcc_searchR, gccBody, hl, ht, hx]

/-- Witness for `gcc_enoent_unbound_trace`: concrete environment where
temporary-file creation fails with `ENOENT` while `cc` exists. -/
theorem gcc_enoent_unbound_trace_witness :
    _gcc_search envTmpFail "m" = Except.error PyExc.nameError :=
  (gcc_enoent_unbound_trace envTmpFail "m" "/usr/bin/cc" rfl).1 rfl

/-- C3 counterexample: a spawn-infrastructure failure
(`OSError(EAGAIN)`, errno 11, with the tool present on the path) is NOT
propagated to the caller of the resolver: `_execute` converts it to
absence-of-value and `_ldconfig_search` returns absent. -/
theorem spawn_failure_not_propagated :
    envSpawnFail.popen ["/sbin/ldconfig", "-p"] = SpawnResult.oserror 11 ∧
    _execute envSpawnFail "/sbin/ldconfig -p" = Except.ok none ∧
    _ldconfig_search envSpawnFail "m" = Except.ok none :=
  ⟨rfl, rfl, rfl⟩

/-- C3 amended: every `OSError` raised while spawning an external tool —
including spawn-infrastructure failures, not only tool-not-found — is
caught inside the tool runner and converted to absence-of-value; it is
never propagated to the caller of the resolver/extractor. (Only non-process
exceptions, such as the tokenizer's `ValueError`, propagate.) -/
theorem execute_oserror_swallowed (env : Env) (command : String)
    (argv : List String) (errno : Int)
    (hs : shlexSplit command = some argv)
    (hp : env.popen argv = .oserror errno) :
    _execute env command = .ok none := by
  simp [_execute, hs, hp]

/-- Witness for `execute_oserror_swallowed` at the concrete
spawn-failure environment. -/
theorem execute_oserror_swallowed_witness :
    _execute envSpawnFail "/sbin/ldconfig -p" = Except.ok none :=
  execute_oserror_swallowed envSpawnFail "/sbin/ldconfig -p"
    ["/sbin/ldconfig", "-p"] 11 rfl rfl

/-- C1: the cascade tries the registry resolver, then the linker-trace
resolver, then the local-directory resolver, in that fixed order, and
returns the first non-absent result.  If `_ldconfig_search` produces a
path, `find_library` returns exactly that path and invokes neither
`_gcc_search` nor `_local_search` (the invocation trace is
`[registry]`); if all three are inconclusive the result is absent.
(The `p ≠ ""` hypotheses reflect that a resolver's path — always an
`os.path.realpath` output — is never the empty string, which Python's
`or` would treat as falsy.) -/
theorem find_library_cascade (env : Env) (lib : String) :
    (∀ p, _ldconfig_search env lib = .ok (some p) → p ≠ "" →
      find_library env lib = .ok (some p) ∧
      (find_library_t env lib).2 = [Strategy.registry]) ∧
    (∀ p, _ldconfig_search env lib = .ok none → _gcc_search env lib = .ok (some p) →
      p ≠ "" →
      find_library env lib = .ok (some p) ∧
      (find_library_t env lib).2 = [Strategy.registry, Strategy.linker]) ∧
    (_ldconfig_search env lib = .ok none → _gcc_search env lib = .ok none →
      find_library env lib = .ok (_local_search env lib) ∧
      (find_library_t env lib).2 =
        [Strategy.registry, Strategy.linker, Strategy.localdir]) ∧
    (_ldconfig_search env lib = .ok none → _gcc_search env lib = .ok none →
      _local_search env lib = none →
      find_library env lib = .ok none) := by
  refine ⟨?_, ?_, ?_, ?_⟩
  · intro p h hp
    have hb := beq_false_of_ne hp
    exact ⟨by simp [find_library, h, truthy, hb],
           by simp [find_library_t, h, truthy, hb]⟩
  · intro p h1 h2 hp
    have hb := beq_false_of_ne hp
    exact ⟨by simp [find_library, h1, h2, truthy, hb],
           by simp [find_library_t, h1, h2, truthy, hb]⟩
  · intro h1 h2
    exact ⟨by simp [find_library, h1, h2, truthy],
           by simp [find_library_t, h1, h2, truthy]⟩
  · intro h1 h2 h3
    simp [find_library, h1, h2, h3, truthy]

/-- Witness for `find_library_cascade`: in `envRegistry` the registry
resolver matches and the cascade stops after it. -/
theorem find_library_cascade_witness :
    find_library envRegistry "m" = Except.ok (some "/x") ∧
    (find_library_t envRegistry "m").2 = [Strategy.registry] :=
  (find_library_cascade envRegistry "m").1 "/x" rfl (by decide)

/-- C2 counterexample: for the malformed name `foo"` (an unbalanced
double quote) no matching file is reachable by any strategy in
`envMalformed` (no registry tool, empty working directory, spawns fail),
yet `find_library` raises `ValueError` — `shlex.split` chokes on the
linker command built around the name, and `_gcc_search` only catches
`OSError`. -/
theorem malformed_name_raises :
    _ldconfig_search envMalformed "foo\"" = Except.ok none ∧
    _local_search envMalformed "foo\"" = none ∧
    find_library envMalformed "foo\"" = Except.error PyExc.valueError :=
  ⟨rfl, rfl, rfl⟩

/-- C2 amended: for every name and environment in which each of the three
strategies individually returns absent (so no matching file is reachable
and no strategy raises), `find_library` returns absent and raises
nothing.  The unconditional claim is false: a malformed name whose
characters break the shell-tokenization of the constructed linker command
(e.g. an unbalanced double quote) makes `find_library` raise `ValueError`
when a linker is present. -/
theorem find_library_absent_when_strategies_absent (env : Env) (lib : String)
    (h1 : _ldconfig_search env lib = .ok none)
    (h2 : _gcc_search env lib = .ok none)
    (h3 : _local_search env lib = none) :
    find_library env lib = .ok none := by
  simp [find_library, h1, h2, h3, truthy]

/-- Witness for `find_library_absent_when_strategies_absent`: no tools and
an empty working directory. -/
theorem find_library_absent_when_strategies_absent_witness :
    find_library envNoTools "nosuchlib" = Except.ok none :=
  find_library_absent_when_strategies_absent envNoTools "nosuchlib" rfl rfl rfl

/-- C5: with classifier tag `libc6,x86-64` (machine `x86_64`, 8-byte
longs) and query `m`, `_ldconfig_search` matches the listing line
`libm.so.6 (libc6,x86-64, OS ABI: Linux 2.6.24) => /lib/x86_64-linux-gnu/libm.so.6`,
takes the line up to the next line break, splits it on the `=>` marker
keeping the trailing segment, and returns the normalized, symlink-resolved
(`_final_path`) form of `/lib/x86_64-linux-gnu/libm.so.6`. -/
theorem ldconfig_scenario_a (env : Env)
    (hexe : env.findExecutable "ldconfig" = some "/sbin/ldconfig")
    (hout : env.popen ["/sbin/ldconfig", "-p"] = .ok listingC5)
    (hm : env.machine = "x86_64") (hw : env.longSize = 8) :
    _abi_type env = "libc6,x86-64" ∧
    ldconfigParse "libc6,x86-64" "m" listingC5 =
      some "/lib/x86_64-linux-gnu/libm.so.6" ∧
    _ldconfig_search env "m" =
      .ok (some (_final_path env "/lib/x86_64-linux-gnu/libm.so.6")) := by
  have habi : _abi_type env = "libc6,x86-64" := by
    simp [_abi_type, abi_map, dictGet, hm, hw]
  have hparse : ldconfigParse "libc6,x86-64" "m" listingC5 =
      some "/lib/x86_64-linux-gnu/libm.so.6" := by rfl
  refine ⟨habi, hparse, ?_⟩
  have hsh : shlexSplit ("/sbin/ldconfig" ++ " -p") = some ["/sbin/ldconfig", "-p"] := by
    rfl
  simp only [_ldconfig_search, hexe, _execute, hsh, hout, habi, hparse]

/-- Witness for `ldconfig_scenario_a` at the concrete registry
environment. -/
theorem ldconfig_scenario_a_witness :
    _abi_type envRegistry = "libc6,x86-64" ∧
    ldconfigParse "libc6,x86-64" "m" listingC5 =
      some "/lib/x86_64-linux-gnu/libm.so.6" ∧
    _ldconfig_search envRegistry "m" =
      .ok (some (_final_path envRegistry "/lib/x86_64-linux-gnu/libm.so.6")) :=
  ldconfig_scenario_a envRegistry rfl rfl rfl rfl

/-- C7 counterexample: the claim fails as stated.  The path `/tmp/a"b`
refers to an existing regular file in `envObjdump` and the inspection tool
is unavailable for it (every spawn outside the libm argv fails), yet
`soname` does not return absent: the `objdump` command built around the
path contains an unbalanced double quote, `shlex.split` raises
`ValueError` inside `_execute`, and `except OSError` cannot catch it, so
`soname` raises even though the file exists. -/
theorem soname_existing_file_raises :
    envObjdump.isfile "/tmp/a\"b" = true ∧
    soname envObjdump "/tmp/a\"b" = Except.error PyExc.valueError :=
  ⟨rfl, rfl⟩

/-- C7 amended: on an existing regular file whose path the command
tokenizer can process (the constructed `objdump` command splits cleanly —
e.g. the path has no unbalanced quote), `soname` returns absent — not an
error — when the inspection tool cannot be spawned (`objdump` missing ⇒
`OSError` ⇒ `None`) or when the dump contains no SONAME match; and when
the dump contains `SONAME      libm.so.6` it returns exactly
`libm.so.6`.  Without the tokenization condition the statement is false:
see the counterexample above. -/
theorem soname_absent_and_token (env : Env) (p : String) (argv : List String)
    (hf : env.isfile p = true)
    (hs : shlexSplit ("objdump -x -j .dynamic " ++ p) = some argv) :
    (∀ errno, env.popen argv = .oserror errno → soname env p = .ok none) ∧
    (∀ dump, env.popen argv = .ok dump → sonameSearch dump.data = none →
      soname env p = .ok none) ∧
    (env.popen argv = .ok dumpC7 → soname env p = .ok (some "libm.so.6")) := by
  refine ⟨?_, ?_, ?_⟩
  · intro errno hp
    simp [soname, hf, _execute, hs, hp]
  · intro dump hp hn
    simp [soname, hf, _execute, hs, hp, hn]
  · intro hp
    have hsearch : sonameSearch dumpC7.data = some "libm.so.6".data := by rfl
    simp [soname, hf, _execute, hs, hp, hsearch]

/-- Witness for `soname_absent_and_token`: the concrete `objdump`
environment yields `libm.so.6`. -/
theorem soname_absent_and_token_witness :
    soname envObjdump "/lib/x86_64-linux-gnu/libm.so.6" =
      Except.ok (some "libm.so.6") :=
  (soname_absent_and_token envObjdump "/lib/x86_64-linux-gnu/libm.so.6"
    ["objdump", "-x", "-j", ".dynamic", "/lib/x86_64-linux-gnu/libm.so.6"]
    rfl rfl).2.2 rfl

/-! Provenance lemmas for C8: every present result of the cascade is the
`_final_path` of some candidate. -/

lemma localLoop_final {env : Env} {p : String} :
    ∀ l, localLoop env l = some p → ∃ q, p = _final_path env q := by
  intro l
  induction l with
  | nil => intro h; cases h
  | cons f rest ih =>
    intro h
    cases hf : env.isfile f with
    | true =>
      simp [localLoop, hf] at h
      exact ⟨f, h.symm⟩
    | false =>
      simp [localLoop, hf] at h
      exact ih h

lemma ldconfig_search_final {env : Env} {lib p : String}
    (h : _ldconfig_search env lib = .ok (some p)) : ∃ q, p = _final_path env q := by
  unfold _ldconfig_search at h
  cases he : env.findExecutable "ldconfig" with
  | none => simp [he] at h
  | some exe =>
    simp only [he] at h
    cases hx : _execute env (exe ++ " -p") with
    | error e => simp [hx] at h
    | ok o =>
      cases o with
      | none => simp [hx] at h
      | some out =>
        simp only [hx] at h
        cases hp : ldconfigParse (_abi_type env) lib out with
        | none => simp [hp] at h
        | some lp =>
          simp only [hp, Except.ok.injEq, Option.some.injEq] at h
          exact ⟨lp, h.symm⟩

lemma gccAfterTrace_final {env : Env} {lib p : String} :
    ∀ t, gccAfterTrace env lib t = .ok (some p) → ∃ q, p = _final_path env q := by
  intro t h
  cases t with
  | none => simp [gccAfterTrace] at h
  | some trace =>
    simp only [gccAfterTrace] at h
    cases hp : gccParse lib trace with
    | none => simp [hp] at h
    | some lp =>
      simp only [hp, Except.ok.injEq, Option.some.injEq] at h
      exact ⟨lp, h.symm⟩

lemma gcc_search_final {env : Env} {lib p : String}
    (h : _gcc_search env lib = .ok (some p)) : ∃ q, p = _final_path env q := by
  unfold _gcc_search _gcc_searchR at h
  cases hl : pyOrOpt (env.findExecutable "cc") (env.findExecutable "gcc") with
  | none => simp [hl] at h
  | some linker =>
    simp only [hl] at h
    cases ht : env.tempfile with
    | createError errno =>
      simp only [ht] at h
      by_cases he : errno = ENOENT <;> simp [he] at h
    | ok name exitError =>
      simp only [ht] at h
      unfold gccBody at h
      cases hx : _execute env (gccCommand linker name lib) with
      | error e =>
        cases exitError with
        | none => simp [hx] at h
        | some er => by_cases he : er = ENOENT <;> simp [hx, he] at h
      | ok trace =>
        cases exitError with
        | none =>
          simp only [hx] at h
          exact gccAfterTrace_final trace h
        | some er =>
          by_cases he : er = ENOENT
          · simp only [hx, he, if_pos] at h
            exact gccAfterTrace_final trace h
          · simp [hx, he] at h

lemma find_library_final {env : Env} {lib p : String}
    (h : find_library env lib = .ok (some p)) : ∃ q, p = _final_path env q := by
  unfold find_library at h
  cases h1 : _ldconfig_search env lib with
  | error e => simp [h1] at h
  | ok a =>
    simp only [h1] at h
    by_cases ha : truthy a = true
    · rw [if_pos ha] at h
      have hap : a = some p := Except.ok.inj h
      subst hap
      exact ldconfig_search_final h1
    · rw [if_neg ha] at h
      cases h2 : _gcc_search env lib with
      | error e => simp [h2] at h
      | ok b =>
        simp only [h2] at h
        by_cases hb : truthy b = true
        · rw [if_pos hb] at h
          have hbp : b = some p := Except.ok.inj h
          subst hbp
          exact gcc_search_final h2
        · rw [if_neg hb] at h
          have hlp : _local_search env lib = some p := Except.ok.inj h
          unfold _local_search at hlp
          exact localLoop_final _ hlp

/-- C8: under the standard filesystem laws for `realpath` (its outputs are
absolute, already normalized, and it is idempotent), every present result
of `find_library` is an absolute path, a fixed point of `realpath`
(fully symlink-resolved), and a fixed point of the normalization function
`_final_path`: re-normalizing the returned path yields the same path. -/
theorem find_library_result_normalized (env : Env) (lib p : String)
    (hAbs : ∀ q, (env.realpath q).data.head? = some '/')
    (hNorm : ∀ q, normpath (env.realpath q) = env.realpath q)
    (hIdem : ∀ q, env.realpath (env.realpath q) = env.realpath q)
    (hres : find_library env lib = .ok (some p)) :
    p.data.head? = some '/' ∧ env.realpath p = p ∧ _final_path env p = p := by
  obtain ⟨q, rfl⟩ := find_library_final hres
  refine ⟨hAbs (normpath q), hIdem (normpath q), ?_⟩
  simp only [_final_path]
  rw [hNorm (normpath q), hIdem (normpath q)]

/-- Witness for `find_library_result_normalized` at the concrete registry
environment (whose `realpath` satisfies the filesystem laws). -/
theorem find_library_result_normalized_witness :
    ("/x" : String).data.head? = some '/' ∧
    envRegistry.realpath "/x" = "/x" ∧ _final_path envRegistry "/x" = "/x" :=
  find_library_result_normalized envRegistry "m" "/x"
    (fun _ => rfl) (fun _ => rfl) (fun _ => rfl) rfl

end Libfinder
